import Mathlib

/-!
Shallow embedding of the SnailWatch client (TypeScript/React) for checking its
natural-language specification.

The embedding translates the pure decision logic of the source files:
  - src/src/App.tsx            (main view: poller, taxonomy filter, novelty
                                detection, detail-resolver fallback chain)
  - src/src/pages/PlaneWatcherz.tsx  (map view: poller, marker reconciler)
  - src/src/pages/WearOS.tsx   (watch views: PlaneTrackerz reacquisition)
  - src/src/api/aircraft.ts    (fetchAircraftInRadius helper)

Network interaction is modelled by passing each provider's response in as data:
`none` stands for a thrown fetch / JSON-parse error, and response bodies carry
`Option` fields where the runtime JSON may lack a key.  JavaScript machine
numbers that only pass through arithmetic of the claims (coordinates, speeds,
headings) are modelled as rationals; JavaScript truthiness of a string is
"non-empty", of a number is "non-zero", and of an object is "present".
-/

namespace SnailWatch

/-- JavaScript `Math.round`: round half up. -/
def jsRound (q : ℚ) : ℤ := ⌊q + 1/2⌋

/-- JavaScript `String.prototype.includes` on character lists:
`listStarts needle hay` is true when `needle` is an initial segment of `hay`. -/
def listStarts : List Char → List Char → Bool
  | [], _ => true
  | _ :: _, [] => false
  | c :: cs, d :: ds => c == d && listStarts cs ds

/-- Helper for `jsIncludes`, recursing over the haystack. -/
def listIncl (needle : List Char) : List Char → Bool
  | [] => needle == []
  | c :: cs => listStarts needle (c :: cs) || listIncl needle cs

/-- JavaScript `s.includes(sub)`. -/
def jsIncludes (s sub : String) : Bool := listIncl sub.data s.data

/-- Truthiness of an optional JS number (`undefined` and `0` are falsy). -/
def truthyNum (o : Option ℚ) : Bool :=
  match o with
  | none => false
  | some q => q != 0

/-- Truthiness of an optional JS string (`undefined` and the empty string are
falsy). -/
def truthyStr (o : Option String) : Bool :=
  match o with
  | none => false
  | some s => s != ""

/-- JS `a || b` for optional strings: keep `a` when truthy, else `b`. -/
def orStr (a : Option String) (b : String) : String :=
  if truthyStr a then a.getD "" else b

/-- `alt_baro`: a barometric altitude is a number or the string sentinel
`'ground'` (src/src/App.tsx line 814). -/
inductive AltBaro where
  | num : ℚ → AltBaro
  | ground : AltBaro
deriving DecidableEq, Repr

/-- The `Aircraft` interface (src/src/App.tsx lines 806-820, identical in
PlaneWatcherz.tsx, WearOS.tsx and api/aircraft.ts).  Fields the runtime feed
may omit are `Option`; `r` and `t` are normalised to `''` when missing by the
airplanes.live mapping and by the interface contract. -/
structure Aircraft where
  hex : String
  r : String := ""
  t : String := ""
  desc : Option String := none
  flight : Option String := none
  lat : ℚ := 0
  lon : ℚ := 0
  alt_baro : Option AltBaro := none
  gs : Option ℚ := none
  mach : Option ℚ := none
  track : Option ℚ := none
  calc_track : Option ℚ := none
  dir : Option ℚ := none
deriving DecidableEq, Repr

/-! ## Marker rotation (src/src/pages/PlaneWatcherz.tsx lines 288-292)

The marker update effect computes, for each rendered aircraft,
`const heading = plane.track ?? plane.dir ?? plane.calc_track;`
`const rotation = heading !== undefined ? heading : 0;`
(the same expression appears at App.tsx lines 1589-1592 and 1652-1654 and at
WearOS.tsx lines 805-806). -/

/-- `plane.track ?? plane.dir ?? plane.calc_track`. -/
def headingOf (p : Aircraft) : Option ℚ :=
  (p.track.orElse fun _ => p.dir).orElse fun _ => p.calc_track

/-- The rotation applied to the marker: the heading when defined, else `0`. -/
def rotationOf (p : Aircraft) : ℚ := (headingOf p).getD 0

/-- Rotation as the specification sentence words it: fallback priority
primary (`track`), then calculated (`calc_track`), then derived (`dir`),
then `0`.  Written from the spec, for comparison with `rotationOf`. -/
def rotationClaimed (p : Aircraft) : ℚ :=
  (((p.track.orElse fun _ => p.calc_track).orElse fun _ => p.dir)).getD 0

/-! ## Speed derivation (src/src/App.tsx lines 930-937)

`fetchAircraftDetails` derives the published speed once, before any resolver
runs:
`if (mach) speedKmh = Math.round(mach * 1234.8);`
`else if (groundSpeed) speedKmh = Math.round(groundSpeed * 1.852);` -/

/-- The derived `speedKmh` value. -/
def speedKmh (mach groundSpeed : Option ℚ) : Option ℤ :=
  if truthyNum mach then some (jsRound (mach.getD 0 * (12348/10)))
  else if truthyNum groundSpeed then some (jsRound (groundSpeed.getD 0 * (1852/1000)))
  else none

/-- Speed derivation as the claim words it: if a Mach value is *present*
(defined), use it; otherwise if a ground speed is *present*, use that.
Written from the spec, for comparison with `speedKmh`. -/
def speedClaimed (mach groundSpeed : Option ℚ) : Option ℤ :=
  match mach with
  | some m => some (jsRound (m * (12348/10)))
  | none =>
    match groundSpeed with
    | some g => some (jsRound (g * (1852/1000)))
    | none => none

/-! ## The detail-resolver fallback chain (src/src/App.tsx lines 930-1118)

`fetchAircraftDetails` publishes (via `setSelectedAircraftDetail`) a
provisional record built from the aircraft telemetry, then tries four
providers in order — api.adsbdb.com, the local `/details-api` proxy,
hexdb.io, and the in-memory ICAO repository — publishing the first one that
reaches its `setSelectedAircraftDetail` call and returning.  Each provider's
network response is passed in as data; `none` models a thrown fetch or JSON
error. -/

/-- JS `a || b` for two plain strings. -/
def orS (a b : String) : String := if a != "" then a else b

/-- JS `a || b` where both sides are optional strings and falsy values fall
through (used for the alias chains of the offline registry). -/
def jsOr (a b : Option String) : Option String := if truthyStr a then a else b

/-- An airport of a flight route (origin/destination shape used at App.tsx
lines 990-1004). -/
structure AirportInfo where
  name : Option String := none
  iata_code : Option String := none
  municipality : Option String := none
  country_name : Option String := none
deriving DecidableEq, Repr

/-- The airline of a flight route (App.tsx lines 1006-1010). -/
structure AirlineInfo where
  name : Option String := none
  iata : Option String := none
  country : Option String := none
deriving DecidableEq, Repr

/-- The `AircraftDetail` interface (App.tsx lines 822-850).  Fields that a
runtime JSON payload may omit are `Option`. -/
structure AircraftDetail where
  ICAO : String := ""
  Registration : Option String := none
  Manufacturer : Option String := none
  Model : Option String := none
  RegisteredOwners : Option String := none
  Callsign : Option String := none
  Altitude : Option AltBaro := none
  Speed : Option ℤ := none
  Origin : Option AirportInfo := none
  Destination : Option AirportInfo := none
  Airline : Option AirlineInfo := none
deriving DecidableEq, Repr

/-- The `response.aircraft` object of an adsbdb payload (fields read at
App.tsx lines 978-981). -/
structure AdsbdbAircraft where
  registration : Option String := none
  manufacturer : Option String := none
  type : Option String := none
  icao_type : Option String := none
  registered_owner : Option String := none
deriving DecidableEq, Repr

/-- The `response.flightroute` object of an adsbdb payload. -/
structure Flightroute where
  origin : Option AirportInfo := none
  destination : Option AirportInfo := none
  airline : Option AirlineInfo := none
deriving DecidableEq, Repr

/-- Parsed adsbdb body: `adsbData.response?.aircraft` and
`adsbData.response?.flightroute`. -/
structure AdsbdbBody where
  aircraft : Option AdsbdbAircraft := none
  flightroute : Option Flightroute := none
deriving DecidableEq, Repr

/-- An adsbdb HTTP response: `ok` status plus the parsed body (`none` when
`res.json()` throws). -/
structure AdsbdbResponse where
  ok : Bool
  body : Option AdsbdbBody := none
deriving DecidableEq, Repr

/-- A `/details-api` response: `ok` status plus the parsed `AircraftDetail`
payload (`none` when `res.json()` throws). -/
structure DetailsApiResponse where
  ok : Bool
  body : Option AircraftDetail := none
deriving DecidableEq, Repr

/-- A parsed hexdb.io body (fields read at App.tsx lines 1050-1056; `error`
models the truthiness of `hexdbData.error`; `TypeName` stands for the JSON
key `Type`, which Lean reserves). -/
structure HexdbBody where
  error : Bool := false
  Registration : Option String := none
  Manufacturer : Option String := none
  TypeName : Option String := none
  ICAOTypeCode : Option String := none
  RegisteredOwners : Option String := none
deriving DecidableEq, Repr

/-- A hexdb.io HTTP response. -/
structure HexdbResponse where
  ok : Bool
  body : Option HexdbBody := none
deriving DecidableEq, Repr

/-- An entry of the bundled offline ICAO repository, tolerant of the field
aliases read at App.tsx lines 1081-1085. -/
structure LocalEntry where
  reg : Option String := none
  r : Option String := none
  registration : Option String := none
  manufacturer : Option String := none
  m : Option String := none
  icaotype : Option String := none
  t : Option String := none
  type : Option String := none
  short_type : Option String := none
  ownop : Option String := none
  o : Option String := none
  owner : Option String := none
  model : Option String := none
deriving DecidableEq, Repr

/-- All provider responses for one run of the chain.  `adsbdb`, `detailsApi`,
`hexdb` are `none` when the fetch itself threw; `icaoRepo` is `none` when the
repository was never loaded (`icaoRepo` state still null) and otherwise the
key/value pairs of the loaded JSON object. -/
structure ResolverEnv where
  adsbdb : Option AdsbdbResponse := none
  detailsApi : Option DetailsApiResponse := none
  hexdb : Option HexdbResponse := none
  icaoRepo : Option (List (String × LocalEntry)) := none
deriving DecidableEq, Repr

/-- The provisional record published immediately from the raw aircraft data
(App.tsx lines 941-950). -/
def defaultDetails (hex : String) (callsign : Option String)
    (altitude : Option AltBaro) (sp : Option ℤ) (ad : Aircraft) : AircraftDetail :=
  { ICAO := hex
    Registration := some (orS ad.r hex)
    Manufacturer := some "Not found"
    Model := some (if truthyStr ad.desc then ad.desc.getD "" else
      if ad.t != "" && !(jsIncludes ad.t "tisb") && !(jsIncludes ad.t "adsb")
          && !(jsIncludes ad.t "adsr") then ad.t else "Unknown")
    RegisteredOwners := some "Not found"
    Callsign := callsign
    Altitude := altitude
    Speed := sp }

/-- The record built from a successful adsbdb response (App.tsx lines
976-1012). -/
def adsbdbRecord (hex : String) (callsign : Option String)
    (altitude : Option AltBaro) (sp : Option ℤ)
    (a : AdsbdbAircraft) (fr : Option Flightroute) : AircraftDetail :=
  { ICAO := hex
    Registration := some (orStr a.registration hex)
    Manufacturer := some (orStr a.manufacturer "Unknown")
    Model := some (orStr a.type (orStr a.icao_type "Unknown"))
    RegisteredOwners := some (orStr a.registered_owner "Unknown")
    Callsign := callsign
    Altitude := altitude
    Speed := sp
    Origin := fr.bind (·.origin)
    Destination := fr.bind (·.destination)
    Airline := fr.bind (·.airline) }

/-- The record built from a successful hexdb.io response (App.tsx lines
1051-1060). -/
def hexdbRecord (hex : String) (callsign : Option String)
    (altitude : Option AltBaro) (sp : Option ℤ) (b : HexdbBody) : AircraftDetail :=
  { ICAO := hex
    Registration := some (orStr b.Registration hex)
    Manufacturer := some (orStr b.Manufacturer "Unknown")
    Model := some (orStr b.TypeName (orStr b.ICAOTypeCode "Unknown"))
    RegisteredOwners := some (orStr b.RegisteredOwners "Unknown")
    Callsign := callsign
    Altitude := altitude
    Speed := sp }

/-- The record built from an offline-repository entry (App.tsx lines
1080-1099). -/
def localRecord (hex : String) (callsign : Option String)
    (altitude : Option AltBaro) (sp : Option ℤ) (e : LocalEntry) : AircraftDetail :=
  let registration := jsOr e.reg (jsOr e.r (jsOr e.registration none))
  let manufacturer := jsOr e.manufacturer (jsOr e.m none)
  let type := jsOr e.icaotype (jsOr e.t (jsOr e.type (jsOr e.short_type none)))
  let owner := jsOr e.ownop (jsOr e.o (jsOr e.owner none))
  let model := jsOr e.model none
  { ICAO := hex
    Registration := some (orStr registration hex)
    Manufacturer := some (orStr manufacturer
      (if truthyStr model then model.getD "" else "Unknown"))
    Model := some (orStr type "Unknown")
    RegisteredOwners := some (orStr owner "Unknown")
    Callsign := callsign
    Altitude := altitude
    Speed := sp }

/-- Resolver 1 (adsbdb): publishes iff the fetch did not throw, the status was
success, the body parsed and `response?.aircraft` is an object (App.tsx lines
964-1018). -/
def resolver1Result (env : ResolverEnv) (hex : String) (callsign : Option String)
    (altitude : Option AltBaro) (sp : Option ℤ) : Option AircraftDetail :=
  env.adsbdb.bind fun resp =>
    if resp.ok then
      resp.body.bind fun b =>
        b.aircraft.map fun a => adsbdbRecord hex callsign altitude sp a b.flightroute
    else none

/-- Resolver 2 (local `/details-api` proxy): publishes iff the fetch did not
throw, the status was success and the body parses; the payload is used
wholesale with ICAO/Callsign/Altitude/Speed overwritten from local values
(App.tsx lines 1026-1038). -/
def resolver2Result (env : ResolverEnv) (hex : String) (callsign : Option String)
    (altitude : Option AltBaro) (sp : Option ℤ) : Option AircraftDetail :=
  env.detailsApi.bind fun resp =>
    if resp.ok then
      resp.body.map fun p =>
        { p with ICAO := hex, Callsign := callsign, Altitude := altitude, Speed := sp }
    else none

/-- Resolver 3 (hexdb.io): publishes iff the fetch did not throw, the status
was success, the body parses and has no `error` field (App.tsx lines
1045-1065). -/
def resolver3Result (env : ResolverEnv) (hex : String) (callsign : Option String)
    (altitude : Option AltBaro) (sp : Option ℤ) : Option AircraftDetail :=
  env.hexdb.bind fun resp =>
    if resp.ok then
      resp.body.bind fun b =>
        if b.error then none else some (hexdbRecord hex callsign altitude sp b)
    else none

/-- Resolver 4 (bundled offline repository): publishes iff the repository is
loaded and holds an entry under the uppercased identifier (App.tsx lines
1073-1106). -/
def resolver4Result (env : ResolverEnv) (hex : String) (callsign : Option String)
    (altitude : Option AltBaro) (sp : Option ℤ) : Option AircraftDetail :=
  env.icaoRepo.bind fun entries =>
    (entries.lookup hex.toUpper).map fun e => localRecord hex callsign altitude sp e

/-- The record `fetchAircraftDetails` leaves published when it returns: the
first resolver that succeeds wins; when none succeeds the provisional record
(when `aircraftData` was passed) or the previously published record remains
(App.tsx lines 930-1118). -/
def fetchAircraftDetailsFinal (env : ResolverEnv) (hex : String)
    (callsign : Option String) (altitude : Option AltBaro) (mach gs : Option ℚ)
    (aircraftData : Option Aircraft) (prev : Option AircraftDetail) :
    Option AircraftDetail :=
  let sp := speedKmh mach gs
  let base := match aircraftData with
    | some ad => some (defaultDetails hex callsign altitude sp ad)
    | none => prev
  match resolver1Result env hex callsign altitude sp with
  | some d => some d
  | none =>
    match resolver2Result env hex callsign altitude sp with
    | some d => some d
    | none =>
      match resolver3Result env hex callsign altitude sp with
      | some d => some d
      | none =>
        match resolver4Result env hex callsign altitude sp with
        | some d => some d
        | none => base

/-- Which stage of the chain ends up published. -/
inductive Source where
  | adsbdb
  | detailsApi
  | hexdb
  | localRepo
  | provisional
deriving DecidableEq, Repr

/-- Resolver 1 is treated as a success by the code: success status and a
parsed body whose `aircraft` field is an object. -/
def adsbdbSucceeds (env : ResolverEnv) : Bool :=
  match env.adsbdb with
  | some resp => resp.ok && (match resp.body with
    | some b => b.aircraft.isSome
    | none => false)
  | none => false

/-- Resolver 2 is treated as a success by the code: success status and a body
that parses — its content is never inspected. -/
def detailsApiSucceeds (env : ResolverEnv) : Bool :=
  match env.detailsApi with
  | some resp => resp.ok && resp.body.isSome
  | none => false

/-- Resolver 3 is treated as a success by the code: success status, a parsed
body, and no `error` field. -/
def hexdbSucceeds (env : ResolverEnv) : Bool :=
  match env.hexdb with
  | some resp => resp.ok && (match resp.body with
    | some b => !b.error
    | none => false)
  | none => false

/-- Resolver 4 is treated as a success by the code: repository loaded and an
entry present under the uppercased identifier. -/
def localRepoSucceeds (env : ResolverEnv) (hex : String) : Bool :=
  match env.icaoRepo with
  | some entries => (entries.lookup hex.toUpper).isSome
  | none => false

/-- The stage whose record the chain publishes, per the code's success
criteria. -/
def publishSource (env : ResolverEnv) (hex : String) : Source :=
  if adsbdbSucceeds env then .adsbdb
  else if detailsApiSucceeds env then .detailsApi
  else if hexdbSucceeds env then .hexdb
  else if localRepoSucceeds env hex then .localRepo
  else .provisional

/-- The success rule as the claim words it, applied to resolver 1: success
status AND the payload contains at least a registration or a type value. -/
def adsbdbSucceedsClaimed (env : ResolverEnv) : Bool :=
  match env.adsbdb with
  | some resp => resp.ok && (match resp.body with
    | some b => (match b.aircraft with
      | some a => truthyStr a.registration || truthyStr a.type || truthyStr a.icao_type
      | none => false)
    | none => false)
  | none => false

/-- The claim's success rule applied to resolver 2. -/
def detailsApiSucceedsClaimed (env : ResolverEnv) : Bool :=
  match env.detailsApi with
  | some resp => resp.ok && (match resp.body with
    | some p => truthyStr p.Registration || truthyStr p.Model
    | none => false)
  | none => false

/-- The claim's success rule applied to resolver 3. -/
def hexdbSucceedsClaimed (env : ResolverEnv) : Bool :=
  match env.hexdb with
  | some resp => resp.ok && (match resp.body with
    | some b => !b.error && (truthyStr b.Registration || truthyStr b.TypeName
        || truthyStr b.ICAOTypeCode)
    | none => false)
  | none => false

/-- The claim's success rule applied to resolver 4. -/
def localRepoSucceedsClaimed (env : ResolverEnv) (hex : String) : Bool :=
  match env.icaoRepo with
  | some entries => match entries.lookup hex.toUpper with
    | some e => truthyStr (jsOr e.reg (jsOr e.r (jsOr e.registration none)))
        || truthyStr (jsOr e.icaotype (jsOr e.t (jsOr e.type (jsOr e.short_type none))))
    | none => false
  | none => false

/-- The stage the chain would publish if every resolver were held to the
claim's success rule (success status and registration-or-type present).
Written from the spec, for comparison with `publishSource`. -/
def publishSourceClaimed (env : ResolverEnv) (hex : String) : Source :=
  if adsbdbSucceedsClaimed env then .adsbdb
  else if detailsApiSucceedsClaimed env then .detailsApi
  else if hexdbSucceedsClaimed env then .hexdb
  else if localRepoSucceedsClaimed env hex then .localRepo
  else .provisional

/-! ## Taxonomy filter (src/src/App.tsx lines 1121-1157 and 1259-1279)

`matchesFilter` tests `new RegExp(pattern, 'i').test(aircraftType)` for each
pattern.  The regex-test primitive is passed in as a function
`rtest pattern target`; for concrete evaluations it is instantiated with
`rtestLiteral`, which is what the JS test computes for a pattern free of
regex metacharacters (case-insensitive substring containment). -/

/-- A plane model of the taxonomy (`PlaneModel`, App.tsx lines 852-856; the
reference photo plays no role in filtering). -/
structure PlaneModel where
  plane_name : String
  regex : List String
deriving DecidableEq, Repr

/-- A manufacturer of the taxonomy (App.tsx lines 858-861). -/
structure PlaneManufacturer where
  manufacturer_name : String
  models : List PlaneModel
deriving DecidableEq, Repr

/-- The loaded taxonomy (App.tsx lines 863-865). -/
structure PlanesDatabase where
  planes : List PlaneManufacturer
deriving DecidableEq, Repr

/-- The sentinel filter name for the "others" bucket (App.tsx line 898). -/
def OTHERS_FILTER : String := "__OTHERS__"

/-- ASCII lower-casing of one character (what JS case-insensitive matching
does on the ASCII patterns of the taxonomy). -/
def lowerChar (c : Char) : Char :=
  if 65 <= c.toNat && c.toNat <= 90 then Char.ofNat (c.toNat + 32) else c

/-- Case-insensitive literal matching: what `new RegExp(pattern, 'i')
.test(target)` computes when `pattern` has no regex metacharacters. -/
def rtestLiteral (pattern target : String) : Bool :=
  listIncl (pattern.data.map lowerChar) (target.data.map lowerChar)

/-- Every model of the taxonomy, across manufacturers. -/
def allModels (pdb : PlanesDatabase) : List PlaneModel :=
  pdb.planes.flatMap (·.models)

/-- `matchesFilter` (App.tsx lines 1121-1157): empty selection or missing
taxonomy passes everything; otherwise the aircraft passes iff some pattern of
some *selected* model matches `aircraft.t || aircraft.desc || ''`, or it
matches no known model at all and the "others" option is selected. -/
def matchesFilter (rtest : String → String → Bool) (selected : List String)
    (db : Option PlanesDatabase) (ac : Aircraft) : Bool :=
  match db with
  | none => true
  | some pdb =>
    if selected.isEmpty then true
    else
      let aircraftType := orS ac.t (orStr ac.desc "")
      let modelMatch := fun (m : PlaneModel) => m.regex.any fun pattern => rtest pattern aircraftType
      ((allModels pdb).any fun m => modelMatch m && selected.contains m.plane_name) ||
        (!((allModels pdb).any modelMatch) && selected.contains OTHERS_FILTER)

/-- The matcher as the claim words it: a pattern matches the aircraft when it
matches its type code *or* its description (both are tested).  Written from
the spec, for comparison with `matchesFilter`. -/
def matchesFilterClaimed (rtest : String → String → Bool) (selected : List String)
    (db : Option PlanesDatabase) (ac : Aircraft) : Bool :=
  match db with
  | none => true
  | some pdb =>
    if selected.isEmpty then true
    else
      let modelMatch := fun (m : PlaneModel) => m.regex.any fun pattern =>
        rtest pattern ac.t || rtest pattern (ac.desc.getD "")
      ((allModels pdb).any fun m => modelMatch m && selected.contains m.plane_name) ||
        (!((allModels pdb).any modelMatch) && selected.contains OTHERS_FILTER)

/-- Non-standard-source exclusion (App.tsx lines 1263-1268): an aircraft is
dropped when its type code mentions a relayed source. -/
def nonStandardType (ac : Aircraft) : Bool :=
  jsIncludes ac.t "tisb" || jsIncludes ac.t "adsr" || jsIncludes ac.t "mlat"

/-- The filter effect (App.tsx lines 1259-1279): drop relayed sources unless
opted in, then apply `matchesFilter` when a selection and the taxonomy are
present.  The result is what `setAircraft` publishes as the filtered list. -/
def filterPipeline (rtest : String → String → Bool) (showNonStandardADSB : Bool)
    (selected : List String) (db : Option PlanesDatabase)
    (allAircraft : List Aircraft) : List Aircraft :=
  let f1 := if showNonStandardADSB then allAircraft
    else allAircraft.filter fun ac => !(nonStandardType ac)
  if !selected.isEmpty && db.isSome then f1.filter (matchesFilter rtest selected db)
  else f1

/-! ## Novelty detection (src/src/App.tsx lines 1159-1243)

`fetchData` increments `fetchCounter`; only when the incremented counter is
divisible by `REFRESH_INTERVAL` does it compute the new entries (present now,
absent from `previousAircraft`, with truthy registration), spotlight the
first one, and replace `previousAircraft` by the hex set of the *raw* fetched
list.  On other cycles `previousAircraft` is untouched. -/

/-- `REFRESH_INTERVAL` (App.tsx line 802). -/
def REFRESH_INTERVAL : ℕ := 10

/-- The mutable state of the novelty detector: the `previousAircraft` ref and
the `fetchCounter` ref. -/
structure NoveltyState where
  previousAircraft : List String
  fetchCounter : ℕ
deriving DecidableEq, Repr

/-- Result of one successful fetch cycle: updated refs plus the spotlighted
arrival (the first new entry), if any. -/
structure NoveltyResult where
  state : NoveltyState
  spotlight : Option Aircraft
deriving DecidableEq, Repr

/-- One successful `fetchData` cycle's effect on the novelty state (App.tsx
lines 1166-1239). -/
def fetchDataNovelty (st : NoveltyState) (currentAircraft : List Aircraft) :
    NoveltyResult :=
  let c := st.fetchCounter + 1
  if c % REFRESH_INTERVAL = 0 then
    let newEntries := currentAircraft.filter fun ac =>
      !(st.previousAircraft.contains ac.hex) && ac.r != ""
    { state := { previousAircraft := currentAircraft.map (·.hex), fetchCounter := c }
      spotlight := newEntries.head? }
  else
    { state := { st with fetchCounter := c }, spotlight := none }

/-! ## Position feed poller

Two implementations exist: the helper `fetchAircraftInRadius`
(src/src/api/aircraft.ts lines 83-107), which maps every failure to the
empty list, and the in-component `fetchData` of PlaneWatcherz.tsx (lines
98-153, adsb.fi branch), whose `catch` skips `setAircraft` so a failed cycle
leaves the previously published list in place. -/

/-- An HTTP response of the position feed: status plus parsed JSON body.  The
outer `Option` on `body` is `none` when `res.json()` throws; the inner
`Option` is `none` when the parsed object has no `aircraft` field. -/
structure FeedResponse where
  ok : Bool
  status : ℕ := 200
  body : Option (Option (List Aircraft)) := none
deriving DecidableEq, Repr

/-- `fetchAircraftInRadius` (api/aircraft.ts lines 83-107): rate-limit
returns `[]`, any other HTTP error or thrown fetch/parse is caught to `[]`,
and a missing `aircraft` field yields `[]` via `data.aircraft || []`. -/
def fetchAircraftInRadius (resp : Option FeedResponse) : List Aircraft :=
  match resp with
  | none => []
  | some r =>
    if !r.ok then
      if r.status = 429 then [] else []
    else
      match r.body with
      | none => []
      | some b => b.getD []

/-- The aircraft list published after one PlaneWatcherz `fetchData` cycle
(PlaneWatcherz.tsx lines 98-153, adsb.fi branch): on success `setAircraft`
publishes `data.aircraft || []`; on any thrown error the `catch` only logs,
so the previously published list `prev` stays. -/
def fetchDataPublish (resp : Option FeedResponse) (prev : List Aircraft) :
    List Aircraft :=
  match resp with
  | none => prev
  | some r =>
    if !r.ok then prev
    else
      match r.body with
      | none => prev
      | some b => b.getD []

/-- A failed poll cycle in the claim's sense: thrown fetch, HTTP error status
(rate limit included), or malformed payload. -/
def pollCycleFailed (resp : Option FeedResponse) : Bool :=
  match resp with
  | none => true
  | some r => !r.ok || r.body.isNone

/-! ## Marker reconciler (src/src/pages/PlaneWatcherz.tsx lines 274-327)

`allMarkers` is a `Map` from hex to marker handle; the update effect first
removes markers whose hex left the set, then walks the aircraft list and
either updates an existing marker in place or creates a new one.  A marker
handle is modelled by a numeric identity plus its mutable position/rotation;
creation draws a fresh identity from a counter, and updating preserves it. -/

/-- A marker handle: `id` is the persistent identity of the visual entity,
the rest is its mutable state. -/
structure MarkerState where
  id : ℕ
  lng : ℚ
  lat : ℚ
  rotation : ℚ
deriving DecidableEq, Repr

/-- JS `Map.set`: replace the value under an existing key in place, else
append the pair. -/
def setMarker (key : String) (mk : MarkerState) :
    List (String × MarkerState) → List (String × MarkerState)
  | [] => [(key, mk)]
  | (k, v) :: rest =>
    if k = key then (k, mk) :: rest else (k, v) :: setMarker key mk rest

/-- Outcome of one run of the marker update effect. -/
structure ReconcileResult where
  markers : List (String × MarkerState)
  nextId : ℕ
  removed : ℕ
  created : ℕ
deriving DecidableEq, Repr

/-- One run of the marker update effect (PlaneWatcherz.tsx lines 274-327):
(a) markers whose hex is absent from the current set are removed and
destroyed; (b) each aircraft either updates its existing marker in place
(same identity) or gets a freshly created marker. -/
def reconcileMarkers (markers : List (String × MarkerState)) (nextId : ℕ)
    (planes : List Aircraft) : ReconcileResult :=
  let currentHexes := planes.map (·.hex)
  let kept := markers.filter fun m => currentHexes.contains m.1
  let removedCount := markers.length - kept.length
  let upd := planes.foldl
    (fun (acc : List (String × MarkerState) × ℕ × ℕ) plane =>
      match acc.1.lookup plane.hex with
      | some mk =>
        (setMarker plane.hex
          { mk with lng := plane.lon, lat := plane.lat, rotation := rotationOf plane }
          acc.1, acc.2)
      | none =>
        (acc.1 ++ [(plane.hex,
          { id := acc.2.1, lng := plane.lon, lat := plane.lat,
            rotation := rotationOf plane })], acc.2.1 + 1, acc.2.2 + 1))
    (kept, nextId, 0)
  { markers := upd.1, nextId := upd.2.1, removed := removedCount, created := upd.2.2 }

/-! ## Target reacquisition tracker (src/src/pages/WearOS.tsx lines 604-640)

`PlaneTrackerz.fetchAircraft` queries a fixed `SEARCH_RADIUS_NM` around the
current `(currentSearchLat, currentSearchLon)` anchor; when the tracked hex
is found the anchor moves to the found position and the selected aircraft is
refreshed; otherwise (absent, HTTP error, rate limit, parse error) the state
is left unchanged. -/

/-- `SEARCH_RADIUS_NM` (WearOS.tsx line 535). -/
def SEARCH_RADIUS_NM : ℕ := 10

/-- The query a tracker cycle issues: `/api/lat/LAT/lon/LON/dist/DIST`. -/
structure TrackerQuery where
  lat : ℚ
  lon : ℚ
  dist : ℕ
deriving DecidableEq, Repr

/-- The state owned by the reacquisition tracker. -/
structure TrackerState where
  currentSearchLat : ℚ
  currentSearchLon : ℚ
  selectedAircraft : Option Aircraft
deriving DecidableEq, Repr

/-- The query issued by one cycle (WearOS.tsx line 610). -/
def trackerQuery (st : TrackerState) : TrackerQuery :=
  { lat := st.currentSearchLat, lon := st.currentSearchLon, dist := SEARCH_RADIUS_NM }

/-- One `fetchAircraft` cycle of PlaneTrackerz (WearOS.tsx lines 607-635). -/
def trackerStep (st : TrackerState) (trackedHex : String)
    (resp : Option FeedResponse) : TrackerState :=
  match resp with
  | none => st
  | some r =>
    if !r.ok then st
    else
      match r.body with
      | none => st
      | some b =>
        match (b.getD []).find? (fun ac => ac.hex = trackedHex) with
        | some found =>
          { currentSearchLat := found.lat, currentSearchLon := found.lon,
            selectedAircraft := some found }
        | none => st

/-! ## Concrete fixtures used by the evaluations below -/

/-- An environment where every provider fails (all fetches throw, repository
not loaded). -/
def envAllFail : ResolverEnv := {}

/-- The spec's scenario aircraft: identifier "abc123", registration "N1",
flight "UAL100", altitude 35000, ground speed 450 at (34.0, -118.0). -/
def adScenario : Aircraft :=
  { hex := "abc123", r := "N1", t := "B738", flight := some "UAL100",
    lat := 34, lon := -118, alt_baro := some (.num 35000), gs := some 450 }

/-- adsbdb answers with success status and an aircraft object that has
neither a registration nor a type; the local proxy has a good payload. -/
def envC3a : ResolverEnv :=
  { adsbdb := some { ok := true, body := some { aircraft := some {} } },
    detailsApi := some
      { ok := true,
        body := some { Registration := some "N12345", Model := some "B738" } } }

/-- adsbdb fails; the local proxy answers success status with an empty
payload; hexdb has a good payload. -/
def envC3b : ResolverEnv :=
  { adsbdb := some { ok := false },
    detailsApi := some { ok := true, body := some {} },
    hexdb := some { ok := true, body := some { Registration := some "G-ABCD" } } }

/-- Resolver 1 fails; resolver 2 returns Registration "N12345" and Type
"B738" with no manufacturer (the C4 scenario). -/
def envC4 : ResolverEnv :=
  { adsbdb := some { ok := false },
    detailsApi := some
      { ok := true,
        body := some { Registration := some "N12345", Model := some "B738" } } }

/-- Only resolver 2 can answer, with an empty payload (witness environment
for the fall-through characterization). -/
def envW3 : ResolverEnv :=
  { detailsApi := some { ok := true, body := some {} } }

/-- A one-model taxonomy: Boeing 737, matched by the pattern "737". -/
def db737 : PlanesDatabase :=
  { planes := [{ manufacturer_name := "Boeing",
                 models := [{ plane_name := "Boeing 737", regex := ["737"] }] }] }

/-- An aircraft whose type code is A320 but whose description mentions a 737:
its description matches the "737" pattern, its type code does not. -/
def acC7 : Aircraft :=
  { hex := "b", r := "N2", t := "A320", desc := some "BOEING 737-800" }

end SnailWatch

namespace SnailWatch

/-! ## Helper lemmas about the resolver chain -/

/-- Resolver 1 produces a record exactly when the code's success condition
for adsbdb holds. -/
theorem resolver1_isSome (env : ResolverEnv) (hex : String) (cs : Option String)
    (alt : Option AltBaro) (sp : Option ℤ) :
    (resolver1Result env hex cs alt sp).isSome = adsbdbSucceeds env := by
  unfold resolver1Result adsbdbSucceeds
  rcases env.adsbdb with _ | ⟨ok, body⟩
  · rfl
  · cases ok
    · rfl
    · rcases body with _ | ⟨air, fr⟩
      · rfl
      · cases air <;> rfl

/-- Resolver 2 produces a record exactly when the code's success condition
for the local proxy holds. -/
theorem resolver2_isSome (env : ResolverEnv) (hex : String) (cs : Option String)
    (alt : Option AltBaro) (sp : Option ℤ) :
    (resolver2Result env hex cs alt sp).isSome = detailsApiSucceeds env := by
  unfold resolver2Result detailsApiSucceeds
  rcases env.detailsApi with _ | ⟨ok, body⟩
  · rfl
  · cases ok
    · rfl
    · cases body <;> rfl

/-- Resolver 3 produces a record exactly when the code's success condition
for hexdb holds. -/
theorem resolver3_isSome (env : ResolverEnv) (hex : String) (cs : Option String)
    (alt : Option AltBaro) (sp : Option ℤ) :
    (resolver3Result env hex cs alt sp).isSome = hexdbSucceeds env := by
  unfold resolver3Result hexdbSucceeds
  rcases env.hexdb with _ | ⟨ok, body⟩
  · rfl
  · cases ok
    · rfl
    · rcases body with _ | b
      · rfl
      · rcases b with ⟨e, x1, x2, x3, x4, x5⟩
        cases e <;> rfl

/-- Resolver 4 produces a record exactly when the code's success condition
for the offline repository holds. -/
theorem resolver4_isSome (env : ResolverEnv) (hex : String) (cs : Option String)
    (alt : Option AltBaro) (sp : Option ℤ) :
    (resolver4Result env hex cs alt sp).isSome = localRepoSucceeds env hex := by
  unfold resolver4Result localRepoSucceeds
  rcases env.icaoRepo with _ | entries
  · rfl
  · cases entries.lookup hex.toUpper <;> simp

/-- A successful resolver-1 record is the one published. -/
theorem final_eq_r1 (env : ResolverEnv) (hex : String) (cs : Option String)
    (alt : Option AltBaro) (mach gs : Option ℚ) (ad : Option Aircraft)
    (prev : Option AircraftDetail) (d : AircraftDetail)
    (h : resolver1Result env hex cs alt (speedKmh mach gs) = some d) :
    fetchAircraftDetailsFinal env hex cs alt mach gs ad prev = some d := by
  simp only [fetchAircraftDetailsFinal, h]

/-- When resolver 1 fails, a successful resolver-2 record is the one
published. -/
theorem final_eq_r2 (env : ResolverEnv) (hex : String) (cs : Option String)
    (alt : Option AltBaro) (mach gs : Option ℚ) (ad : Option Aircraft)
    (prev : Option AircraftDetail) (d : AircraftDetail)
    (h1 : resolver1Result env hex cs alt (speedKmh mach gs) = none)
    (h : resolver2Result env hex cs alt (speedKmh mach gs) = some d) :
    fetchAircraftDetailsFinal env hex cs alt mach gs ad prev = some d := by
  simp only [fetchAircraftDetailsFinal, h1, h]

/-- When resolvers 1-2 fail, a successful resolver-3 record is the one
published. -/
theorem final_eq_r3 (env : ResolverEnv) (hex : String) (cs : Option String)
    (alt : Option AltBaro) (mach gs : Option ℚ) (ad : Option Aircraft)
    (prev : Option AircraftDetail) (d : AircraftDetail)
    (h1 : resolver1Result env hex cs alt (speedKmh mach gs) = none)
    (h2 : resolver2Result env hex cs alt (speedKmh mach gs) = none)
    (h : resolver3Result env hex cs alt (speedKmh mach gs) = some d) :
    fetchAircraftDetailsFinal env hex cs alt mach gs ad prev = some d := by
  simp only [fetchAircraftDetailsFinal, h1, h2, h]

/-- When resolvers 1-3 fail, a successful resolver-4 record is the one
published. -/
theorem final_eq_r4 (env : ResolverEnv) (hex : String) (cs : Option String)
    (alt : Option AltBaro) (mach gs : Option ℚ) (ad : Option Aircraft)
    (prev : Option AircraftDetail) (d : AircraftDetail)
    (h1 : resolver1Result env hex cs alt (speedKmh mach gs) = none)
    (h2 : resolver2Result env hex cs alt (speedKmh mach gs) = none)
    (h3 : resolver3Result env hex cs alt (speedKmh mach gs) = none)
    (h : resolver4Result env hex cs alt (speedKmh mach gs) = some d) :
    fetchAircraftDetailsFinal env hex cs alt mach gs ad prev = some d := by
  simp only [fetchAircraftDetailsFinal, h1, h2, h3, h]

/-- When every resolver fails and aircraft telemetry was passed, the
provisional record is the one left published. -/
theorem final_eq_provisional (env : ResolverEnv) (hex : String)
    (cs : Option String) (alt : Option AltBaro) (mach gs : Option ℚ)
    (ad : Aircraft) (prev : Option AircraftDetail)
    (h1 : resolver1Result env hex cs alt (speedKmh mach gs) = none)
    (h2 : resolver2Result env hex cs alt (speedKmh mach gs) = none)
    (h3 : resolver3Result env hex cs alt (speedKmh mach gs) = none)
    (h4 : resolver4Result env hex cs alt (speedKmh mach gs) = none) :
    fetchAircraftDetailsFinal env hex cs alt mach gs (some ad) prev =
      some (defaultDetails hex cs alt (speedKmh mach gs) ad) := by
  simp only [fetchAircraftDetailsFinal, h1, h2, h3, h4]

/-- A Bool-level success condition that is false forces the corresponding
resolver result to be `none`. -/
theorem result_none_of_not_succeeds {o : Option AircraftDetail} {b : Bool}
    (hiso : o.isSome = b) (hb : b = false) : o = none := by
  subst hb
  rcases o with _ | d
  · rfl
  · simp at hiso

/-- Every record a resolver can publish carries the derived speed. -/
theorem resolver1_speed (env : ResolverEnv) (hex : String) (cs : Option String)
    (alt : Option AltBaro) (sp : Option ℤ) (d : AircraftDetail)
    (h : resolver1Result env hex cs alt sp = some d) : d.Speed = sp := by
  unfold resolver1Result at h
  rcases henv : env.adsbdb with _ | ⟨ok, body⟩
  · rw [henv] at h; simp at h
  · rw [henv] at h
    cases ok
    · simp at h
    · rcases body with _ | ⟨air, fr⟩
      · simp at h
      · rcases air with _ | a
        · simp at h
        · simp [adsbdbRecord] at h
          subst h
          rfl

/-- Every record resolver 2 can publish carries the derived speed. -/
theorem resolver2_speed (env : ResolverEnv) (hex : String) (cs : Option String)
    (alt : Option AltBaro) (sp : Option ℤ) (d : AircraftDetail)
    (h : resolver2Result env hex cs alt sp = some d) : d.Speed = sp := by
  unfold resolver2Result at h
  rcases henv : env.detailsApi with _ | ⟨ok, body⟩
  · rw [henv] at h; simp at h
  · rw [henv] at h
    cases ok
    · simp at h
    · rcases body with _ | p
      · simp at h
      · simp at h
        subst h
        rfl

/-- Every record resolver 3 can publish carries the derived speed. -/
theorem resolver3_speed (env : ResolverEnv) (hex : String) (cs : Option String)
    (alt : Option AltBaro) (sp : Option ℤ) (d : AircraftDetail)
    (h : resolver3Result env hex cs alt sp = some d) : d.Speed = sp := by
  unfold resolver3Result at h
  rcases henv : env.hexdb with _ | ⟨ok, body⟩
  · rw [henv] at h; simp at h
  · rw [henv] at h
    cases ok
    · simp at h
    · rcases body with _ | b
      · simp at h
      · rcases b with ⟨e, x1, x2, x3, x4, x5⟩
        cases e
        · simp [hexdbRecord] at h
          subst h
          rfl
        · simp at h

/-- Every record resolver 4 can publish carries the derived speed. -/
theorem resolver4_speed (env : ResolverEnv) (hex : String) (cs : Option String)
    (alt : Option AltBaro) (sp : Option ℤ) (d : AircraftDetail)
    (h : resolver4Result env hex cs alt sp = some d) : d.Speed = sp := by
  unfold resolver4Result at h
  rcases henv : env.icaoRepo with _ | entries
  · rw [henv] at h; simp at h
  · rw [henv] at h
    simp only [Option.some_bind'] at h
    rcases hl : entries.lookup hex.toUpper with _ | e
    · rw [hl] at h; simp at h
    · rw [hl] at h
      simp [localRecord] at h
      subst h
      rfl

/-- The published record always carries the derived speed, whichever stage
published it (the provisional record included). -/
theorem speed_carried (env : ResolverEnv) (hex : String) (cs : Option String)
    (alt : Option AltBaro) (mach gs : Option ℚ) (ad : Aircraft)
    (prev : Option AircraftDetail) (d : AircraftDetail)
    (h : fetchAircraftDetailsFinal env hex cs alt mach gs (some ad) prev = some d) :
    d.Speed = speedKmh mach gs := by
  rcases h1 : resolver1Result env hex cs alt (speedKmh mach gs) with _ | d1
  case some =>
    rw [final_eq_r1 env hex cs alt mach gs (some ad) prev d1 h1] at h
    cases h
    exact resolver1_speed env hex cs alt _ _ h1
  rcases h2 : resolver2Result env hex cs alt (speedKmh mach gs) with _ | d2
  case some =>
    rw [final_eq_r2 env hex cs alt mach gs (some ad) prev d2 h1 h2] at h
    cases h
    exact resolver2_speed env hex cs alt _ _ h2
  rcases h3 : resolver3Result env hex cs alt (speedKmh mach gs) with _ | d3
  case some =>
    rw [final_eq_r3 env hex cs alt mach gs (some ad) prev d3 h1 h2 h3] at h
    cases h
    exact resolver3_speed env hex cs alt _ _ h3
  rcases h4 : resolver4Result env hex cs alt (speedKmh mach gs) with _ | d4
  case some =>
    rw [final_eq_r4 env hex cs alt mach gs (some ad) prev d4 h1 h2 h3 h4] at h
    cases h
    exact resolver4_speed env hex cs alt _ _ h4
  rw [final_eq_provisional env hex cs alt mach gs ad prev h1 h2 h3 h4] at h
  cases h
  rfl

/-- C1: the claim as stated says the applied marker rotation falls back
primary → calculated → derived → 0, and that an aircraft with
primary=undefined, calculated=270, derived=90 gets rotation 270.  The code
(PlaneWatcherz.tsx line 291) applies `track ?? dir ?? calc_track`, so that
aircraft gets rotation 90: counterexample. -/
theorem C1_counterexample :
    rotationClaimed { hex := "a", calc_track := some 270, dir := some 90 } = 270 ∧
    rotationOf { hex := "a", calc_track := some 270, dir := some 90 } = 90 := by
  constructor <;> rfl

/-- C1 (amended): the applied marker rotation is chosen with fallback priority
primary heading (`track`), then derived direction (`dir`), then calculated
heading (`calc_track`), then 0 when all three are absent; in particular, for
an aircraft with `track` undefined, `calc_track` = 270 and `dir` = 90, the
applied rotation is 90. -/
theorem C1_rotation_fallback (p : Aircraft) :
    (∀ h, p.track = some h → rotationOf p = h) ∧
    (p.track = none → ∀ h, p.dir = some h → rotationOf p = h) ∧
    (p.track = none → p.dir = none → ∀ h, p.calc_track = some h → rotationOf p = h) ∧
    (p.track = none → p.dir = none → p.calc_track = none → rotationOf p = 0) := by
  refine ⟨?_, ?_, ?_, ?_⟩
  · intro h ht
    simp [rotationOf, headingOf, ht, Option.orElse]
  · intro ht h hd
    simp [rotationOf, headingOf, ht, hd, Option.orElse]
  · intro ht hd h hc
    simp [rotationOf, headingOf, ht, hd, hc, Option.orElse]
  · intro ht hd hc
    simp [rotationOf, headingOf, ht, hd, hc, Option.orElse]

/-- C1 witness: evaluating the amended fallback at the spec's example aircraft
(`track` undefined, `calc_track` = 270, `dir` = 90) gives rotation 90. -/
theorem C1_rotation_fallback_witness :
    rotationOf { hex := "a", calc_track := some 270, dir := some 90 } = 90 :=
  (C1_rotation_fallback { hex := "a", calc_track := some 270, dir := some 90 }).2.1 rfl 90 rfl

/-- C10: the claim as stated derives the speed from Mach whenever a Mach value
is present.  The code (App.tsx line 933) tests JS truthiness, so Mach `0`
falls through to the ground-speed branch: with mach = 0 and ground speed 450
the code publishes round(450 × 1.852) = 833 while the claimed rule gives
round(0 × 1234.8) = 0.  Counterexample. -/
theorem C10_counterexample :
    speedKmh (some 0) (some 450) = some 833 ∧
    speedClaimed (some 0) (some 450) = some 0 := by
  constructor
  · show (if truthyNum (some 0) then _ else _) = _
    norm_num [truthyNum, speedKmh, jsRound]
  · norm_num [speedClaimed, jsRound]

/-- C10 (amended): the published speed is computed exactly once before any
resolver runs: if a nonzero (truthy) Mach value is present, speed =
round(mach × 1234.8) km/h, otherwise if a nonzero ground speed is present,
speed = round(gs × 1.852) km/h, otherwise no speed; the value is carried
unchanged into whichever record the resolver chain ends up publishing; in
particular, ground speed 450 with no Mach yields speed
round(450 × 1.852) = 833. -/
theorem C10_speed_derivation (mach gs : Option ℚ) :
    (∀ m, mach = some m → m ≠ 0 → speedKmh mach gs = some (jsRound (m * (12348/10)))) ∧
    ((mach = none ∨ mach = some 0) → ∀ g, gs = some g → g ≠ 0 →
      speedKmh mach gs = some (jsRound (g * (1852/1000)))) ∧
    ((mach = none ∨ mach = some 0) → (gs = none ∨ gs = some 0) →
      speedKmh mach gs = none) ∧
    (∀ env hex cs alt ad prev d,
      fetchAircraftDetailsFinal env hex cs alt mach gs (some ad) prev = some d →
      d.Speed = speedKmh mach gs) ∧
    speedKmh none (some 450) = some 833 := by
  refine ⟨?_, ?_, ?_, ?_, ?_⟩
  · intro m hm hm0
    simp [speedKmh, truthyNum, hm, hm0]
  · intro hm g hg hg0
    rcases hm with hm | hm <;> simp [speedKmh, truthyNum, hm, hg, hg0]
  · intro hm hg
    rcases hm with hm | hm <;> rcases hg with hg | hg <;>
      simp [speedKmh, truthyNum, hm, hg]
  · intro env hex cs alt ad prev d h
    exact speed_carried env hex cs alt mach gs ad prev d h
  · show (if truthyNum none then _ else _) = _
    norm_num [speedKmh, truthyNum, jsRound]

/-- C10 witness: the amended derivation applied at mach = 2 (truthy) takes
the Mach branch, and the value published for the all-providers-fail scenario
record at gs = 450 is the derived speed. -/
theorem C10_speed_derivation_witness :
    speedKmh (some 2) none = some (jsRound (2 * (12348/10))) ∧
    (defaultDetails "h" none none (speedKmh none (some 450)) { hex := "h" }).Speed =
      speedKmh none (some 450) :=
  ⟨(C10_speed_derivation (some 2) none).1 2 rfl (by norm_num),
   (C10_speed_derivation none (some 450)).2.2.2.1 envAllFail "h" none none
     { hex := "h" } none
     (defaultDetails "h" none none (speedKmh none (some 450)) { hex := "h" }) rfl⟩

/-- C3: the claim as stated requires every resolver to be treated as
successful only when its response has success status AND carries a
registration or type; the code's actual criteria differ.  In `envC3a`,
adsbdb answers success with an aircraft object holding neither value: the
claim demands a fall-through to the local proxy, but the chain publishes the
adsbdb record (all fields defaulted) and stops.  In `envC3b`, the local
proxy answers success with an empty payload: the claim demands a
fall-through to hexdb, but the chain stops at the proxy. -/
theorem C3_counterexample :
    publishSource envC3a "abc" = Source.adsbdb ∧
    publishSourceClaimed envC3a "abc" = Source.detailsApi ∧
    fetchAircraftDetailsFinal envC3a "abc" none none none none none none =
      some { ICAO := "abc", Registration := some "abc",
             Manufacturer := some "Unknown", Model := some "Unknown",
             RegisteredOwners := some "Unknown" } ∧
    publishSource envC3b "abc" = Source.detailsApi ∧
    publishSourceClaimed envC3b "abc" = Source.hexdb :=
  ⟨rfl, rfl, rfl, rfl, rfl⟩

/-- C3 (amended): the chain tries the resolvers in order and publishes the
first successful one's record, but success means: resolver 1 — success
status and a parsed body containing an aircraft object (even one with
neither registration nor type); resolver 2 — success status and parseable
body (content never inspected); resolver 3 — success status, parsed body, no
error flag; resolver 4 — loaded repository with an entry under the
uppercased identifier.  An empty-but-successful response is still treated as
success by resolvers 1 and 2. -/
theorem C3_resolver_success (env : ResolverEnv) (hex : String) (cs : Option String)
    (alt : Option AltBaro) (mach gs : Option ℚ) (ad : Option Aircraft)
    (prev : Option AircraftDetail) :
    ((resolver1Result env hex cs alt (speedKmh mach gs)).isSome = adsbdbSucceeds env) ∧
    ((resolver2Result env hex cs alt (speedKmh mach gs)).isSome = detailsApiSucceeds env) ∧
    ((resolver3Result env hex cs alt (speedKmh mach gs)).isSome = hexdbSucceeds env) ∧
    ((resolver4Result env hex cs alt (speedKmh mach gs)).isSome = localRepoSucceeds env hex) ∧
    (∀ d, resolver1Result env hex cs alt (speedKmh mach gs) = some d →
      fetchAircraftDetailsFinal env hex cs alt mach gs ad prev = some d) ∧
    (∀ d, resolver1Result env hex cs alt (speedKmh mach gs) = none →
      resolver2Result env hex cs alt (speedKmh mach gs) = some d →
      fetchAircraftDetailsFinal env hex cs alt mach gs ad prev = some d) ∧
    (∀ d, resolver1Result env hex cs alt (speedKmh mach gs) = none →
      resolver2Result env hex cs alt (speedKmh mach gs) = none →
      resolver3Result env hex cs alt (speedKmh mach gs) = some d →
      fetchAircraftDetailsFinal env hex cs alt mach gs ad prev = some d) ∧
    (∀ d, resolver1Result env hex cs alt (speedKmh mach gs) = none →
      resolver2Result env hex cs alt (speedKmh mach gs) = none →
      resolver3Result env hex cs alt (speedKmh mach gs) = none →
      resolver4Result env hex cs alt (speedKmh mach gs) = some d →
      fetchAircraftDetailsFinal env hex cs alt mach gs ad prev = some d) :=
  ⟨resolver1_isSome env hex cs alt (speedKmh mach gs),
   resolver2_isSome env hex cs alt (speedKmh mach gs),
   resolver3_isSome env hex cs alt (speedKmh mach gs),
   resolver4_isSome env hex cs alt (speedKmh mach gs),
   fun d h => final_eq_r1 env hex cs alt mach gs ad prev d h,
   fun d h1 h => final_eq_r2 env hex cs alt mach gs ad prev d h1 h,
   fun d h1 h2 h => final_eq_r3 env hex cs alt mach gs ad prev d h1 h2 h,
   fun d h1 h2 h3 h => final_eq_r4 env hex cs alt mach gs ad prev d h1 h2 h3 h⟩

/-- C3 witness: in `envW3`, where adsbdb threw and the proxy answered an
empty-but-successful payload, the fall-through characterization yields the
proxy record with only the locally-known fields set. -/
theorem C3_resolver_success_witness :
    fetchAircraftDetailsFinal envW3 "h" none none none none none none =
      some { ICAO := "h" } :=
  (C3_resolver_success envW3 "h" none none none none none none).2.2.2.2.2.1
    { ICAO := "h" } rfl rfl

/-- C4: the claim as stated says that when resolver 1 fails and resolver 2
returns Registration "N12345" / Type "B738" without a manufacturer, the
final record keeps the provisional record's manufacturer.  The code instead
replaces the record wholesale with the resolver-2 payload: the published
manufacturer is absent while the provisional one was "Not found". -/
theorem C4_counterexample :
    (fetchAircraftDetailsFinal envC4 "abc123" none none none (some 450)
        (some adScenario) none).map (·.Manufacturer) = some none ∧
    (defaultDetails "abc123" none none (speedKmh none (some 450))
        adScenario).Manufacturer = some "Not found" ∧
    (fetchAircraftDetailsFinal envC4 "abc123" none none none (some 450)
        (some adScenario) none).map (·.Registration) = some (some "N12345") ∧
    (fetchAircraftDetailsFinal envC4 "abc123" none none none (some 450)
        (some adScenario) none).map (·.Model) = some (some "B738") :=
  ⟨rfl, rfl, rfl, rfl⟩

/-- C4 (amended): if resolver 1 fails and resolver 2 answers success with a
payload, the final published record is that payload wholesale with only
ICAO, Callsign, Altitude and Speed overwritten from locally-known values —
Registration and Type are upgraded, but a manufacturer missing from the
payload stays missing rather than keeping the provisional value.  (A field
populated by a higher-priority resolver is still never overwritten by a
lower-priority one, because the chain publishes at most one resolver's
record and stops at the first success.) -/
theorem C4_wholesale_replacement (env : ResolverEnv) (hex : String)
    (cs : Option String) (alt : Option AltBaro) (mach gs : Option ℚ)
    (ad : Aircraft) (prev : Option AircraftDetail) (p : AircraftDetail)
    (h1 : adsbdbSucceeds env = false)
    (h2 : env.detailsApi = some { ok := true, body := some p }) :
    fetchAircraftDetailsFinal env hex cs alt mach gs (some ad) prev =
      some { p with ICAO := hex, Callsign := cs, Altitude := alt,
                    Speed := speedKmh mach gs } := by
  have hr1 : resolver1Result env hex cs alt (speedKmh mach gs) = none :=
    result_none_of_not_succeeds (resolver1_isSome env hex cs alt (speedKmh mach gs)) h1
  have hr2 : resolver2Result env hex cs alt (speedKmh mach gs) =
      some { p with ICAO := hex, Callsign := cs, Altitude := alt,
                    Speed := speedKmh mach gs } := by
    unfold resolver2Result
    rw [h2]
    rfl
  exact final_eq_r2 env hex cs alt mach gs (some ad) prev _ hr1 hr2

/-- C4 witness: the wholesale replacement evaluated at the scenario
environment. -/
theorem C4_wholesale_replacement_witness :
    fetchAircraftDetailsFinal envC4 "abc123" none none none (some 450)
        (some adScenario) none =
      some { ICAO := "abc123", Registration := some "N12345",
             Model := some "B738", Speed := speedKmh none (some 450) } :=
  C4_wholesale_replacement envC4 "abc123" none none none (some 450) adScenario none
    { Registration := some "N12345", Model := some "B738" } rfl rfl

/-- C5: if every resolver in the chain fails for a spotlighted arrival, the
provisional record built from already-available telemetry remains the
published detail record, unmodified — it is never replaced by an
all-"unknown" record and no error is surfaced. -/
theorem C5_provisional_retained (env : ResolverEnv) (hex : String)
    (cs : Option String) (alt : Option AltBaro) (mach gs : Option ℚ)
    (ad : Aircraft) (prev : Option AircraftDetail)
    (h1 : adsbdbSucceeds env = false) (h2 : detailsApiSucceeds env = false)
    (h3 : hexdbSucceeds env = false) (h4 : localRepoSucceeds env hex = false) :
    fetchAircraftDetailsFinal env hex cs alt mach gs (some ad) prev =
      some (defaultDetails hex cs alt (speedKmh mach gs) ad) :=
  final_eq_provisional env hex cs alt mach gs ad prev
    (result_none_of_not_succeeds (resolver1_isSome env hex cs alt (speedKmh mach gs)) h1)
    (result_none_of_not_succeeds (resolver2_isSome env hex cs alt (speedKmh mach gs)) h2)
    (result_none_of_not_succeeds (resolver3_isSome env hex cs alt (speedKmh mach gs)) h3)
    (result_none_of_not_succeeds (resolver4_isSome env hex cs alt (speedKmh mach gs)) h4)

/-- C5 witness: with every provider failing, the spec's scenario aircraft
keeps its provisional record. -/
theorem C5_provisional_retained_witness :
    fetchAircraftDetailsFinal envAllFail "abc123" (some "UAL100")
        (some (.num 35000)) none (some 450) (some adScenario) none =
      some (defaultDetails "abc123" (some "UAL100") (some (.num 35000))
        (speedKmh none (some 450)) adScenario) :=
  C5_provisional_retained envAllFail "abc123" (some "UAL100") (some (.num 35000))
    none (some 450) adScenario none rfl rfl rfl rfl

/-- C2: the claim as stated says the SeenSet is replaced unconditionally at
the end of every poll cycle by the identifier set of that cycle's filtered
list.  In the code the replacement happens only on every
`REFRESH_INTERVAL`-th fetch, and uses the raw list.  First part: on a
non-check cycle (counter 0 → 1) the stale identifier "old" survives in the
SeenSet although it is absent from the cycle's filtered list.  Second part:
on a check cycle, a tisb-typed aircraft is dropped by the filter yet its
identifier enters the SeenSet. -/
theorem C2_counterexample :
    (("a" ∈ (filterPipeline rtestLiteral false [] none
        [{ hex := "a", r := "N1", t := "A320" }]).map (fun ac => ac.hex)) ∧
      ("old" ∈ (fetchDataNovelty { previousAircraft := ["old"], fetchCounter := 0 }
        [{ hex := "a", r := "N1", t := "A320" }]).state.previousAircraft) ∧
      ("a" ∉ (fetchDataNovelty { previousAircraft := ["old"], fetchCounter := 0 }
        [{ hex := "a", r := "N1", t := "A320" }]).state.previousAircraft)) ∧
    (("x" ∈ (fetchDataNovelty { previousAircraft := [], fetchCounter := 9 }
        [{ hex := "x", r := "N2", t := "tisb" }]).state.previousAircraft) ∧
      ("x" ∉ (filterPipeline rtestLiteral false [] none
        [{ hex := "x", r := "N2", t := "tisb" }]).map (fun ac => ac.hex))) := by
  decide

/-- C2 (amended): the SeenSet is replaced only on the cycles that run the
novelty check — those where the incremented fetch counter is divisible by
REFRESH_INTERVAL (10) — and then it becomes the identifier set of that
cycle's raw (pre-filter) aircraft list; on every other cycle it is left
unchanged. -/
theorem C2_seen_set (st : NoveltyState) (current : List Aircraft) :
    ((st.fetchCounter + 1) % REFRESH_INTERVAL = 0 →
      (fetchDataNovelty st current).state.previousAircraft =
        current.map (fun ac => ac.hex)) ∧
    ((st.fetchCounter + 1) % REFRESH_INTERVAL ≠ 0 →
      (fetchDataNovelty st current).state.previousAircraft =
        st.previousAircraft) := by
  constructor <;> intro h <;> simp [fetchDataNovelty, h]

/-- C2 witness: a check cycle (counter 9 → 10) replaces the SeenSet by the
raw identifier set. -/
theorem C2_seen_set_witness :
    (fetchDataNovelty { previousAircraft := ["old"], fetchCounter := 9 }
      [{ hex := "a" }]).state.previousAircraft = ["a"] :=
  (C2_seen_set { previousAircraft := ["old"], fetchCounter := 9 }
    [{ hex := "a" }]).1 (by decide)

/-- C6: the claim as stated says a failed poll cycle publishes the empty
list.  The page-level poller's `catch` skips `setAircraft`, so a failed
cycle leaves the previously published (possibly non-empty) list in place. -/
theorem C6_counterexample :
    pollCycleFailed none = true ∧
    fetchDataPublish none [{ hex := "a" }] = [{ hex := "a" }] ∧
    fetchDataPublish none [{ hex := "a" }] ≠ ([] : List Aircraft) := by
  decide

/-- C6 (amended): the helper `fetchAircraftInRadius` indeed returns the
empty list on every failed cycle (HTTP error, rate limit, thrown fetch or
parse), but the PlaneWatcherz poller publishes nothing on a failed cycle —
the previously published list stays; a successful response whose body lacks
the `aircraft` field publishes the empty list, and a successful response
with a list publishes that list. -/
theorem C6_poller_failure (resp : Option FeedResponse) (prev : List Aircraft) :
    (pollCycleFailed resp = true → fetchAircraftInRadius resp = []) ∧
    (pollCycleFailed resp = true → fetchDataPublish resp prev = prev) ∧
    (∀ r, resp = some r → r.ok = true → r.body = some none →
      fetchDataPublish resp prev = []) ∧
    (∀ r l, resp = some r → r.ok = true → r.body = some (some l) →
      fetchDataPublish resp prev = l) := by
  rcases resp with _ | ⟨ok, status, body⟩
  · exact ⟨fun _ => rfl, fun _ => rfl, fun r h => Option.noConfusion h,
      fun r l h => Option.noConfusion h⟩
  · cases ok
    · refine ⟨fun _ => ?_, fun _ => rfl, ?_, ?_⟩
      · simp [fetchAircraftInRadius]
      · intro r h hok hbody
        cases h
        simp at hok
      · intro r l h hok hbody
        cases h
        simp at hok
    · rcases body with _ | b
      · refine ⟨fun _ => rfl, fun _ => rfl, ?_, ?_⟩
        · intro r h hok hbody
          cases h
          simp at hbody
        · intro r l h hok hbody
          cases h
          simp at hbody
      · rcases b with _ | l
        · refine ⟨fun hfail => ?_, fun hfail => ?_, ?_, ?_⟩
          · simp [pollCycleFailed] at hfail
          · simp [pollCycleFailed] at hfail
          · intro r h hok hbody
            cases h
            rfl
          · intro r l2 h hok hbody
            cases h
            simp at hbody
        · refine ⟨fun hfail => ?_, fun hfail => ?_, ?_, ?_⟩
          · simp [pollCycleFailed] at hfail
          · simp [pollCycleFailed] at hfail
          · intro r h hok hbody
            cases h
            simp at hbody
          · intro r l2 h hok hbody
            cases h
            simp at hbody
            subst hbody
            rfl

/-- C6 witness: a rate-limited helper call yields the empty list, a thrown
page-poller cycle keeps the stale list, and a successful cycle publishes the
fetched list. -/
theorem C6_poller_failure_witness :
    fetchAircraftInRadius (some { ok := false, status := 429 }) = [] ∧
    fetchDataPublish none [{ hex := "a" }] = [{ hex := "a" }] ∧
    fetchDataPublish (some { ok := true, body := some (some [{ hex := "b" }]) })
      [{ hex := "a" }] = [{ hex := "b" }] :=
  ⟨(C6_poller_failure (some { ok := false, status := 429 }) []).1 rfl,
   (C6_poller_failure none [{ hex := "a" }]).2.1 rfl,
   (C6_poller_failure (some { ok := true, body := some (some [{ hex := "b" }]) })
       [{ hex := "a" }]).2.2.2
     { ok := true, body := some (some [{ hex := "b" }]) } [{ hex := "b" }]
     rfl rfl rfl⟩

/-- C7: the claim as stated tests each pattern against the aircraft's type
code *or* its description.  The code tests only `t || desc`: when the type
code is non-empty the description is never consulted.  For `acC7`
(type "A320", description "BOEING 737-800") with "Boeing 737" selected, the
claim includes the aircraft while the code excludes it; with "others" also
selected the code then includes it as an unmatched aircraft. -/
theorem C7_counterexample :
    matchesFilterClaimed rtestLiteral ["Boeing 737"] (some db737) acC7 = true ∧
    matchesFilter rtestLiteral ["Boeing 737"] (some db737) acC7 = false ∧
    matchesFilter rtestLiteral ["Boeing 737", OTHERS_FILTER] (some db737) acC7 = true := by
  refine ⟨?_, ?_, ?_⟩ <;> decide

/-- C7 (amended): with a non-empty selection and a loaded taxonomy, the
filter includes an aircraft iff some pattern of some *selected* model
matches its matching string — the type code when non-empty, otherwise the
description — or no known model's pattern matches that string and the
"others" option is selected; an empty selection (or an unloaded taxonomy)
passes every aircraft. -/
theorem C7_taxonomy_filter (rtest : String → String → Bool)
    (selected : List String) (db : Option PlanesDatabase) (ac : Aircraft) :
    (selected = [] → matchesFilter rtest selected db ac = true) ∧
    (db = none → matchesFilter rtest selected db ac = true) ∧
    (∀ pdb, db = some pdb → selected ≠ [] →
      (matchesFilter rtest selected db ac = true ↔
        ((∃ m ∈ allModels pdb, (m.regex.any fun pattern =>
            rtest pattern (orS ac.t (orStr ac.desc ""))) = true ∧
          m.plane_name ∈ selected) ∨
        ((∀ m ∈ allModels pdb, (m.regex.any fun pattern =>
            rtest pattern (orS ac.t (orStr ac.desc ""))) = false) ∧
          OTHERS_FILTER ∈ selected)))) := by
  refine ⟨?_, ?_, ?_⟩
  · intro h
    subst h
    cases db <;> simp [matchesFilter]
  · intro h
    subst h
    rfl
  · intro pdb hdb hsel
    subst hdb
    simp only [matchesFilter]
    rw [if_neg (by simpa using hsel)]
    simp [List.any_eq_true, List.any_eq_false, Bool.and_eq_true,
      List.elem_iff, Bool.not_eq_true']

/-- C7 witness: an aircraft whose type code B737-800 matches the selected
Boeing 737 model's "737" pattern is included. -/
theorem C7_taxonomy_filter_witness :
    matchesFilter rtestLiteral ["Boeing 737"] (some db737)
      { hex := "z", t := "B737-800" } = true :=
  ((C7_taxonomy_filter rtestLiteral ["Boeing 737"] (some db737)
      { hex := "z", t := "B737-800" }).2.2 db737 rfl (by decide)).mpr
    (Or.inl ⟨{ plane_name := "Boeing 737", regex := ["737"] },
      by decide, by decide, by decide⟩)

/-- C8: across two consecutive reconciliations with aircraft sets A,B then
B,C, exactly one marker is destroyed (A's), exactly one is created (C's,
with a fresh identity), and B's marker keeps the same identity, updated in
place with B's new position and rotation. -/
theorem C8_marker_reconciliation (A B C : String) (mA mB : MarkerState)
    (pB pC : Aircraft) (n : ℕ)
    (hAB : A ≠ B) (hAC : A ≠ C) (hBC : B ≠ C)
    (hB : pB.hex = B) (hC : pC.hex = C) :
    reconcileMarkers [(A, mA), (B, mB)] n [pB, pC] =
      { markers := [(B, { id := mB.id, lng := pB.lon, lat := pB.lat,
                          rotation := rotationOf pB }),
                    (C, { id := n, lng := pC.lon, lat := pC.lat,
                          rotation := rotationOf pC })],
        nextId := n + 1, removed := 1, created := 1 } := by
  subst hB hC
  have e1 : (A == pB.hex) = false := beq_eq_false_iff_ne.mpr hAB
  have e2 : (A == pC.hex) = false := beq_eq_false_iff_ne.mpr hAC
  have e3 : (pB.hex == pC.hex) = false := beq_eq_false_iff_ne.mpr hBC
  have e4 : (pC.hex == pB.hex) = false := beq_eq_false_iff_ne.mpr (Ne.symm hBC)
  simp [reconcileMarkers, setMarker, List.lookup, List.contains, List.elem,
    e1, e2, e3, e4, hBC, Ne.symm hBC]

/-- C8 witness: the reconciliation evaluated on concrete markers and
aircraft. -/
theorem C8_marker_reconciliation_witness :
    reconcileMarkers [("a", ⟨0, 1, 1, 0⟩), ("b", ⟨1, 2, 2, 0⟩)] 5
        [{ hex := "b", lat := 3, lon := 4 }, { hex := "c", lat := 7, lon := 8 }] =
      { markers := [("b", ⟨1, 4, 3, 0⟩), ("c", ⟨5, 8, 7, 0⟩)],
        nextId := 6, removed := 1, created := 1 } :=
  C8_marker_reconciliation "a" "b" "c" ⟨0, 1, 1, 0⟩ ⟨1, 2, 2, 0⟩
    { hex := "b", lat := 3, lon := 4 } { hex := "c", lat := 7, lon := 8 } 5
    (by decide) (by decide) (by decide) rfl rfl

/-- C9: every tracker cycle queries the fixed SEARCH_RADIUS_NM = 10 NM
radius around the current anchor; when the tracked identifier is found the
anchor moves to the found aircraft's coordinates (and the selection is
refreshed), when it is absent — or the cycle fails — the state is left
unchanged so the next cycle retries at the same point. -/
theorem C9_tracker_cycle (st : TrackerState) (trackedHex : String)
    (resp : Option FeedResponse) :
    trackerQuery st =
      { lat := st.currentSearchLat, lon := st.currentSearchLon, dist := 10 } ∧
    (pollCycleFailed resp = true → trackerStep st trackedHex resp = st) ∧
    (∀ r b found, resp = some r → r.ok = true → r.body = some b →
      (b.getD []).find? (fun ac => ac.hex = trackedHex) = some found →
      trackerStep st trackedHex resp =
        { currentSearchLat := found.lat, currentSearchLon := found.lon,
          selectedAircraft := some found }) ∧
    (∀ r b, resp = some r → r.ok = true → r.body = some b →
      (b.getD []).find? (fun ac => ac.hex = trackedHex) = none →
      trackerStep st trackedHex resp = st) := by
  refine ⟨rfl, ?_, ?_, ?_⟩
  · intro hfail
    rcases resp with _ | ⟨ok, status, body⟩
    · rfl
    · cases ok
      · rfl
      · rcases body with _ | b
        · rfl
        · simp [pollCycleFailed] at hfail
  · intro r b found h hok hbody hfind
    subst h
    rcases r with ⟨ok, status, body⟩
    cases hok
    cases hbody
    simp only [trackerStep, Bool.not_true, Bool.false_eq_true, if_false]
    rw [hfind]
  · intro r b h hok hbody hfind
    subst h
    rcases r with ⟨ok, status, body⟩
    cases hok
    cases hbody
    simp only [trackerStep, Bool.not_true, Bool.false_eq_true, if_false]
    rw [hfind]

/-- C9 witness: the tracker evaluated on a cycle that finds the tracked
aircraft and on one that fails. -/
theorem C9_tracker_cycle_witness :
    trackerStep
        { currentSearchLat := 1, currentSearchLon := 2, selectedAircraft := none }
        "t"
        (some { ok := true,
                body := some (some [{ hex := "t", lat := 5, lon := 6 }]) }) =
      { currentSearchLat := 5, currentSearchLon := 6,
        selectedAircraft := some { hex := "t", lat := 5, lon := 6 } } ∧
    trackerStep
        { currentSearchLat := 1, currentSearchLon := 2, selectedAircraft := none }
        "t" none =
      { currentSearchLat := 1, currentSearchLon := 2, selectedAircraft := none } :=
  ⟨(C9_tracker_cycle ⟨1, 2, none⟩ "t"
      (some { ok := true,
              body := some (some [{ hex := "t", lat := 5, lon := 6 }]) })).2.2.1
    { ok := true, body := some (some [{ hex := "t", lat := 5, lon := 6 }]) }
    (some [{ hex := "t", lat := 5, lon := 6 }]) { hex := "t", lat := 5, lon := 6 }
    rfl rfl rfl (by decide),
   (C9_tracker_cycle ⟨1, 2, none⟩ "t" none).2.1 rfl⟩

end SnailWatch
